import Mathlib

/-!
Verification of `src/extension/node/extension_node.ts` from the
malloy-vscode-extension repository: the activation entry point of the
extension.  The file is sequential glue code: it registers commands and
tree views, propagates cloud-shell configuration into environment
variables, registers a configuration-change listener, sets up a language
server client (asynchronously) and a worker connection.

The shallow embedding below models:
* JavaScript values (for configuration settings) and their truthiness;
* the process environment as an association list;
* the host editor's workspace-configuration API as a record of
  configuration objects;
* each function of the file as a state transformer that additionally
  emits a trace of observable actions, with the `async`/`await`
  structure made explicit: `setupLanguageServer` is split into the
  synchronous part that runs up to `await client.onReady()` and the
  continuation (registering the three request handlers) that the event
  loop runs only after `onReady` resolves;
* a single-threaded event loop processing configuration-change events
  and the `onReady` resolution after activation's synchronous turn.

External collaborators (`fetchFile`, `fetchBinaryFile`, `fetchCellData`,
`editConnectionsCommand`, the connection manager, `setupSubscriptions`)
are implemented outside the provided source; they are modelled as
uninterpreted symbols (free constructors / opaque trace actions), which
is faithful because the file only forwards to them.
-/

/-- A JavaScript value, as far as the configuration settings read by this
file are concerned (`vscode.workspace.getConfiguration(s).get(k)` can
return anything). -/
inductive JSValue where
  | undef
  | null
  | bool (b : Bool)
  | num (n : Int)
  | str (s : String)
  deriving DecidableEq

/-- JavaScript truthiness of a `JSValue`, mirroring the implicit boolean
coercion in `if (cloudShellProject && ...)`. -/
def jsTruthy : JSValue → Bool
  | .undef => false
  | .null => false
  | .bool b => b
  | .num n => n != 0
  | .str s => s != ""

/-- Mirrors `typeof v === 'string'`. -/
def jsTypeofString : JSValue → Bool
  | .str _ => true
  | _ => false

/-- The string payload of a `JSValue`; only read under a
`jsTypeofString` guard. -/
def JSValue.asString : JSValue → String
  | .str s => s
  | _ => ""

/-- The process environment (`process.env`), as an association list from
variable names to values. -/
def Env : Type := List (String × String)

/-- Read an environment variable. -/
def getVar (e : Env) (k : String) : Option String :=
  match e with
  | [] => none
  | (k', v) :: rest => if k' = k then some v else getVar rest k

/-- Assign an environment variable (`process.env[k] = v`), replacing an
existing binding in place. -/
def setVar (e : Env) (k v : String) : Env :=
  match e with
  | [] => [(k, v)]
  | (k', v') :: rest =>
      if k' = k then (k, v) :: rest else (k', v') :: setVar rest k v

/-- A configuration object returned by
`vscode.workspace.getConfiguration(section)`: a map from setting names
to values. -/
def ConfigObj : Type := List (String × JSValue)

instance : DecidableEq ConfigObj := by
  unfold ConfigObj
  infer_instance

/-- Mirrors `configuration.get(key)`; absent keys read as `undefined`. -/
def ConfigObj.get (o : ConfigObj) (k : String) : JSValue :=
  match o with
  | [] => JSValue.undef
  | (k', v) :: rest => if k' = k then v else ConfigObj.get rest k

/-- The host editor's workspace configuration at a point in time: the
two sections this file reads. -/
structure HostConfig where
  cloudcode : ConfigObj
  malloy : ConfigObj
  deriving DecidableEq

/-- Mirrors `vscode.workspace.getConfiguration(section)`. Sections other
than the two the file reads are irrelevant and read as empty. -/
def getConfiguration (h : HostConfig) (section_ : String) : ConfigObj :=
  if section_ = "cloudcode" then h.cloudcode
  else if section_ = "malloy" then h.malloy
  else []

/-- Embedding of `cloudshellEnv` (extension_node.ts lines 57-66): read
the `cloudshell.project` setting of the `cloudcode` configuration; if it
is truthy and of string type, assign it to the three environment
variables; otherwise do nothing. -/
def cloudshellEnv (h : HostConfig) (env : Env) : Env :=
  let cloudShellProject := (getConfiguration h "cloudcode").get "cloudshell.project"
  if jsTruthy cloudShellProject && jsTypeofString cloudShellProject then
    setVar
      (setVar
        (setVar env "DEVSHELL_PROJECT_ID" cloudShellProject.asString)
        "GOOGLE_CLOUD_PROJECT" cloudShellProject.asString)
      "GOOGLE_CLOUD_QUOTA_PROJECT" cloudShellProject.asString
  else env

theorem getVar_setVar_same (e : Env) (k v : String) :
    getVar (setVar e k v) k = some v := by
  induction e with
  | nil => simp [setVar, getVar]
  | cons p rest ih =>
      obtain ⟨k', v'⟩ := p
      by_cases hk : k' = k
      · simp [setVar, getVar, hk]
      · simp [setVar, getVar, hk, ih]

theorem getVar_setVar_other (e : Env) (k k' v : String) (hne : k' ≠ k) :
    getVar (setVar e k' v) k = getVar e k := by
  induction e with
  | nil => simp [setVar, getVar, hne]
  | cons p rest ih =>
      obtain ⟨k'', v''⟩ := p
      by_cases hk : k'' = k'
      · subst hk
        simp [setVar, getVar, hne]
      · by_cases hk2 : k'' = k
        · subst hk2
          simp [setVar, getVar, hk]
        · simp [setVar, getVar, hk, hk2, ih]

/-- C3: whenever `cloudshellEnv` runs, if the `cloudcode` configuration's
`cloudshell.project` setting is a truthy string `p`, the three
environment variables `DEVSHELL_PROJECT_ID`, `GOOGLE_CLOUD_PROJECT` and
`GOOGLE_CLOUD_QUOTA_PROJECT` are all set to `p`; otherwise the
environment is left entirely unchanged. -/
theorem C3_cloudshellEnv_sets_project_vars (h : HostConfig) (env : Env) :
    (∀ p : String,
        (getConfiguration h "cloudcode").get "cloudshell.project" = JSValue.str p →
        p ≠ "" →
        getVar (cloudshellEnv h env) "DEVSHELL_PROJECT_ID" = some p ∧
        getVar (cloudshellEnv h env) "GOOGLE_CLOUD_PROJECT" = some p ∧
        getVar (cloudshellEnv h env) "GOOGLE_CLOUD_QUOTA_PROJECT" = some p) ∧
    ((¬ ∃ p : String,
        (getConfiguration h "cloudcode").get "cloudshell.project" = JSValue.str p ∧
        p ≠ "") →
      cloudshellEnv h env = env) := by
  constructor
  · intro p hp hne
    have hcond : (jsTruthy (JSValue.str p) && jsTypeofString (JSValue.str p)) = true := by
      simp [jsTruthy, jsTypeofString, hne]
    simp only [cloudshellEnv, hp, hcond, if_true, JSValue.asString]
    refine ⟨?_, ?_, ?_⟩
    · rw [getVar_setVar_other _ _ _ _ (by decide),
        getVar_setVar_other _ _ _ _ (by decide), getVar_setVar_same]
    · rw [getVar_setVar_other _ _ _ _ (by decide), getVar_setVar_same]
    · rw [getVar_setVar_same]
  · intro hno
    unfold cloudshellEnv
    cases hv : (getConfiguration h "cloudcode").get "cloudshell.project" with
    | str s =>
        by_cases hs : s = ""
        · subst hs
          simp [jsTruthy]
        · exact absurd ⟨s, hv, hs⟩ hno
    | undef => simp [jsTruthy]
    | null => simp [jsTruthy]
    | bool b => simp [jsTypeofString]
    | num n => simp [jsTypeofString]

/-- Witness for C3 at a concrete configuration: project `my-project`
set, so all three variables read back as `my-project`; and at a
configuration with a non-string setting, the environment is unchanged. -/
theorem C3_cloudshellEnv_sets_project_vars_witness :
    (getVar
      (cloudshellEnv
        { cloudcode := [("cloudshell.project", JSValue.str "my-project")], malloy := [] }
        [("PATH", "/usr/bin")])
      "GOOGLE_CLOUD_PROJECT" = some "my-project") ∧
    (cloudshellEnv
        { cloudcode := [("cloudshell.project", JSValue.num 7)], malloy := [] }
        [("PATH", "/usr/bin")]
      = [("PATH", "/usr/bin")]) := by
  constructor
  · exact ((C3_cloudshellEnv_sets_project_vars
      { cloudcode := [("cloudshell.project", JSValue.str "my-project")], malloy := [] }
      [("PATH", "/usr/bin")]).1 "my-project" (by decide) (by decide)).2.1
  · exact (C3_cloudshellEnv_sets_project_vars
      { cloudcode := [("cloudshell.project", JSValue.num 7)], malloy := [] }
      [("PATH", "/usr/bin")]).2 (by rintro ⟨p, hp, -⟩; exact JSValue.noConfusion hp)

/-- A fetch event received from the language server
(`FetchFileEvent` / `FetchBinaryFileEvent` / `FetchCellDataEvent` all
carry a `uri` field, which is the only field the handlers read). -/
structure FetchEvent where
  uri : String
  deriving DecidableEq

/-- The result of one of the three fetch utilities.  The utilities
themselves (`fetchFile`, `fetchBinaryFile`, `fetchCellData` from
`../utils`) are implemented outside the provided source; a result is
modelled as an uninterpreted term recording which utility was applied to
which uri, which is exactly what "forwards the result with no
transformation" needs. -/
inductive FetchResult where
  | fromFetchFile (uri : String)
  | fromFetchBinaryFile (uri : String)
  | fromFetchCellData (uri : String)
  deriving DecidableEq

/-- Uninterpreted model of `fetchFile` from `../utils`. -/
def fetchFile (uri : String) : FetchResult := FetchResult.fromFetchFile uri

/-- Uninterpreted model of `fetchBinaryFile` from `../utils`. -/
def fetchBinaryFile (uri : String) : FetchResult := FetchResult.fromFetchBinaryFile uri

/-- Uninterpreted model of `fetchCellData` from `../utils`. -/
def fetchCellData (uri : String) : FetchResult := FetchResult.fromFetchCellData uri

/-- A message sent to the worker over `WorkerConnection.send`: the file
sends `{type: 'config', config}` and `{type: 'exit'}`. -/
inductive WorkerMessage where
  | config (c : ConfigObj)
  | exit
  deriving DecidableEq

/-- The worker connection (`new WorkerConnection(context)`); it records
the extension context it was constructed from. -/
structure WorkerConnection where
  ctx : String
  deriving DecidableEq

/-- References to command handlers the file can bind; the only one is
`editConnectionsCommand` (implemented in `./commands/edit_connections`,
outside the provided source). -/
inductive HandlerRef where
  | editConnectionsCommand
  deriving DecidableEq

/-- A disposable pushed onto `context.subscriptions` by `activate`. -/
inductive Subscription where
  | treeDataProvider (viewId : String)
  | command (commandId : String) (handler : HandlerRef)
  | configListener
  deriving DecidableEq

/-- The `run`/`debug` halves of `ServerOptions`. -/
structure ModuleTransport where
  module : String
  transport : String
  execArgv : List String
  deriving DecidableEq

/-- The language client constructed by `setupLanguageServer`, with the
fields of `new LanguageClient('malloy', 'Malloy Language Server',
serverOptions, clientOptions)` that the file determines, plus the
mutable pieces of its lifecycle (started, registered request
handlers). -/
structure LangClient where
  id : String
  name : String
  serverRun : ModuleTransport
  serverDebug : ModuleTransport
  documentSelectorLanguages : List String
  syncConfigSection : String
  fileWatcherGlob : String
  started : Bool
  handlers : List (String × (FetchEvent → FetchResult))

/-- An observable action of the extension code, in execution order.
Opaque external calls (`setupSubscriptions`, the connection manager
update, the tree refresh, `console.info`-free) appear as single
actions. -/
inductive Act where
  | newURLReader
  | runSetupSubscriptions
  | newConnectionsProvider
  | setHomeUri
  | registerTreeDataProvider (viewId : String)
  | registerCommand (commandId : String)
  | runCloudshellEnv
  | registerConfigListener
  | lcConstruct (id name : String)
  | lcStart
  | lcAwaitOnReady
  | onReadyResolved
  | onRequest (method : String)
  | newWorkerConnection
  | setWorkerCall
  | workerSend (msg : WorkerMessage)
  | awaitConnectionManagerUpdate
  | refreshConnectionsTree
  | clientStop
  deriving DecidableEq

/-- The mutable state the file touches: the module-level `client`
binding, the worker registered via `setWorker`, the messages sent to the
worker, `process.env`, and `context.subscriptions`. -/
structure ExtState where
  env : Env
  subscriptions : List Subscription
  client : Option LangClient
  worker : Option WorkerConnection
  workerMsgs : List WorkerMessage

/-- The state before `activate` runs: no client, no worker, nothing
subscribed; the process environment is whatever the host provides. -/
def initialState (env0 : Env) : ExtState :=
  { env := env0, subscriptions := [], client := none, worker := none, workerMsgs := [] }

/-- Embedding of `sendWorkerConfig` (lines 175-182): `getWorker().send`
of a config message carrying the current `malloy` workspace
configuration.  Returns `none` when no worker has been registered, which
models the runtime error `getWorker()` being undefined would raise. -/
def sendWorkerConfig (h : HostConfig) (s : ExtState) : Option (ExtState × List Act) :=
  match s.worker with
  | none => none
  | some _ =>
      some ({ s with workerMsgs := s.workerMsgs ++ [WorkerMessage.config (getConfiguration h "malloy")] },
        [Act.workerSend (WorkerMessage.config (getConfiguration h "malloy"))])

/-- Embedding of `setupWorker` (lines 184-188): construct a
`WorkerConnection` from the context, register it via `setWorker`, then
send it the current configuration. -/
def setupWorker (ctx : String) (h : HostConfig) (s : ExtState) : Option (ExtState × List Act) :=
  let s1 := { s with worker := some { ctx := ctx } }
  (sendWorkerConfig h s1).map fun p =>
    (p.1, [Act.newWorkerConnection, Act.setWorkerCall] ++ p.2)

/-- The server module path, `context.asAbsolutePath('dist/server_node.js')`;
the context is modelled by its extension path. -/
def serverModulePath (ctx : String) : String := ctx ++ "/dist/server_node.js"

/-- The `execArgv` of the debug server options (lines 118-125). -/
def debugExecArgv : List String :=
  ["--nolazy", "--inspect=6009", "--preserve-symlinks", "--enable-source-maps"]

/-- The `LanguageClient` as constructed at lines 144-149, from
`serverOptions` (lines 127-134) and `clientOptions` (lines 136-142). -/
def mkLanguageClient (ctx : String) : LangClient :=
  { id := "malloy"
    name := "Malloy Language Server"
    serverRun := { module := serverModulePath ctx, transport := "ipc", execArgv := [] }
    serverDebug := { module := serverModulePath ctx, transport := "ipc", execArgv := debugExecArgv }
    documentSelectorLanguages := ["malloy"]
    syncConfigSection := "malloy"
    fileWatcherGlob := "**/.clientrc"
    started := false
    handlers := [] }

/-- The synchronous part of `setupLanguageServer` (lines 114-152):
construct the client, call `client.start()`, and suspend at
`await client.onReady()`.  Being `async`, the function returns control
to its caller at this point. -/
def setupLanguageServerSync (ctx : String) (s : ExtState) : ExtState × List Act :=
  let c := mkLanguageClient ctx
  ({ s with client := some { c with started := true } },
    [Act.lcConstruct "malloy" "Malloy Language Server", Act.lcStart, Act.lcAwaitOnReady])

/-- Registration of the three request handlers (lines 154-172): each
handler forwards the event's `uri` to the corresponding fetch utility
and returns its result unchanged. -/
def registerFetchHandlers (c : LangClient) : LangClient :=
  { c with handlers := [
      ("malloy/fetchFile", fun event => fetchFile event.uri),
      ("malloy/fetchBinaryFile", fun event => fetchBinaryFile event.uri),
      ("malloy/fetchCellData", fun event => fetchCellData event.uri)] }

/-- The continuation of `setupLanguageServer` after `client.onReady()`
resolves: register the three request handlers. -/
def setupLanguageServerCont (s : ExtState) : ExtState × List Act :=
  ({ s with client := s.client.map registerFetchHandlers },
    [Act.onRequest "malloy/fetchFile", Act.onRequest "malloy/fetchBinaryFile",
      Act.onRequest "malloy/fetchCellData"])

/-- The synchronous body of `activate` (lines 68-102), in source order:
URL reader construction, `setupSubscriptions`, connections-tree
construction, home-URI initialization, tree-data-provider registration,
command registration, `cloudshellEnv()`, configuration-listener
registration, the synchronous prefix of `setupLanguageServer` (which is
`async` and not awaited), then `setupWorker`. -/
def activateSync (ctx : String) (h : HostConfig) (s : ExtState) : Option (ExtState × List Act) :=
  let t0 := [Act.newURLReader, Act.runSetupSubscriptions, Act.newConnectionsProvider,
    Act.setHomeUri]
  let s1 := { s with subscriptions :=
    s.subscriptions ++ [Subscription.treeDataProvider "malloyConnections"] }
  let s2 := { s1 with subscriptions :=
    s1.subscriptions ++ [Subscription.command "malloy.editConnections" HandlerRef.editConnectionsCommand] }
  let s3 := { s2 with env := cloudshellEnv h s2.env }
  let s4 := { s3 with subscriptions := s3.subscriptions ++ [Subscription.configListener] }
  let p5 := setupLanguageServerSync ctx s4
  (setupWorker ctx h p5.1).map fun p6 =>
    (p6.1,
      t0 ++ [Act.registerTreeDataProvider "malloyConnections",
        Act.registerCommand "malloy.editConnections",
        Act.runCloudshellEnv, Act.registerConfigListener]
      ++ p5.2 ++ p6.2)

/-- A complete activation: the synchronous turn of `activate`, then the
event loop resolving `client.onReady()` and running the rest of
`setupLanguageServer`.  This is the earliest schedule; the handlers can
only be registered later than this, never earlier. -/
def activationRun (ctx : String) (h : HostConfig) (env0 : Env) : Option (ExtState × List Act) :=
  (activateSync ctx h (initialState env0)).map fun p =>
    let q := setupLanguageServerCont p.1
    (q.1, p.2 ++ [Act.onReadyResolved] ++ q.2)

/-- A configuration-change event, by which sections it affects
(`e.affectsConfiguration(section)`). -/
structure ConfigChangeEvent where
  affects : String → Bool

/-- The configuration-change listener registered at lines 87-98: on a
change affecting `malloy`, await the connection manager's update,
refresh the connections tree, and send the worker the new configuration;
on a change affecting `cloudshell`, rerun `cloudshellEnv`.  `none`
models the runtime error of `sendWorkerConfig` with no registered
worker. -/
def configListener (h : HostConfig) (e : ConfigChangeEvent) (s : ExtState) :
    Option (ExtState × List Act) :=
  let step1 : Option (ExtState × List Act) :=
    if e.affects "malloy" then
      (sendWorkerConfig h s).map fun p =>
        (p.1, [Act.awaitConnectionManagerUpdate, Act.refreshConnectionsTree] ++ p.2)
    else some (s, [])
  step1.bind fun p =>
    if e.affects "cloudshell" then
      some ({ p.1 with env := cloudshellEnv h p.1.env }, p.2 ++ [Act.runCloudshellEnv])
    else some p

/-- Embedding of `deactivate` (lines 104-112): if a client was created,
await `client.stop()`; then, if a worker is registered, send it
`{type: 'exit'}`. -/
def stopClient (c : LangClient) : LangClient :=
  { c with started := false }

def deactivate (s : ExtState) : ExtState × List Act :=
  let stopTrace : List Act := if s.client.isSome then [Act.clientStop] else []
  let s1 := { s with client := s.client.map stopClient }
  match s1.worker with
  | some _ => ({ s1 with workerMsgs := s1.workerMsgs ++ [WorkerMessage.exit] },
      stopTrace ++ [Act.workerSend WorkerMessage.exit])
  | none => (s1, stopTrace)

/-- An event-loop turn that can run after `activate`'s synchronous turn:
the resolution of `client.onReady()`, or a configuration-change event
delivered to the registered listener (with the workspace configuration
current at that time). -/
inductive LoopEvent where
  | onReadyResolves
  | configChanged (h : HostConfig) (e : ConfigChangeEvent)

/-- Run one event-loop turn. -/
def stepTurn (s : ExtState) : LoopEvent → Option ExtState
  | LoopEvent.onReadyResolves => some (setupLanguageServerCont s).1
  | LoopEvent.configChanged h e => (configListener h e s).map Prod.fst

/-- Run a sequence of event-loop turns; `none` as soon as one fails. -/
def runLoop (s : ExtState) : List LoopEvent → Option ExtState
  | [] => some s
  | ev :: evs => (stepTurn s ev).bind fun s1 => runLoop s1 evs

/-- Classifier: a request-handler registration (`client.onRequest`). -/
def Act.isOnRequest : Act → Bool
  | .onRequest _ => true
  | _ => false

/-- Classifier: the resolution of `client.onReady()`. -/
def Act.isOnReadyResolved : Act → Bool
  | .onReadyResolved => true
  | _ => false

/-- Classifier: an action of `setupLanguageServer`'s body (client
construction, start, awaiting `onReady`, handler registration). -/
def Act.isLangServerAct : Act → Bool
  | .lcConstruct _ _ => true
  | .lcStart => true
  | .lcAwaitOnReady => true
  | .onRequest _ => true
  | _ => false

/-- Classifier: an action of `setupWorker`'s body. -/
def Act.isWorkerSetupAct : Act → Bool
  | .newWorkerConnection => true
  | .setWorkerCall => true
  | .workerSend _ => true
  | _ => false

/-- Classifier: a `vscode.commands.registerCommand` call. -/
def Act.isRegisterCommandAct : Act → Bool
  | .registerCommand _ => true
  | _ => false

/-- Classifier: a `vscode.window.registerTreeDataProvider` call. -/
def Act.isRegisterTreeProviderAct : Act → Bool
  | .registerTreeDataProvider _ => true
  | _ => false

/-- Classifier: the `setupSubscriptions` call. -/
def Act.isSetupSubscriptionsAct : Act → Bool
  | .runSetupSubscriptions => true
  | _ => false

/-- Classifier: the `ConnectionsProvider` construction. -/
def Act.isNewConnectionsProviderAct : Act → Bool
  | .newConnectionsProvider => true
  | _ => false

/-- Classifier: the home-URI initialization. -/
def Act.isSetHomeUriAct : Act → Bool
  | .setHomeUri => true
  | _ => false

/-- Classifier: a `cloudshellEnv()` call. -/
def Act.isRunCloudshellEnvAct : Act → Bool
  | .runCloudshellEnv => true
  | _ => false

/-- Classifier: the `onDidChangeConfiguration` listener registration. -/
def Act.isRegisterConfigListenerAct : Act → Bool
  | .registerConfigListener => true
  | _ => false

/-- Classifier: the `LanguageClient` construction. -/
def Act.isLcConstructAct : Act → Bool
  | .lcConstruct _ _ => true
  | _ => false

/-- Classifier: the `client.start()` call. -/
def Act.isLcStartAct : Act → Bool
  | .lcStart => true
  | _ => false

/-- Classifier: the suspension at `await client.onReady()`. -/
def Act.isLcAwaitOnReadyAct : Act → Bool
  | .lcAwaitOnReady => true
  | _ => false

/-- Classifier: the `WorkerConnection` construction. -/
def Act.isNewWorkerConnectionAct : Act → Bool
  | .newWorkerConnection => true
  | _ => false

/-- Classifier: the `setWorker` call. -/
def Act.isSetWorkerCallAct : Act → Bool
  | .setWorkerCall => true
  | _ => false

/-- Classifier: a `worker.send` call. -/
def Act.isWorkerSendAct : Act → Bool
  | .workerSend _ => true
  | _ => false

/-- The trace of a complete activation, written out; tied to the
embedding by `activationRun_eq` below. -/
def activationTrace (h : HostConfig) : List Act :=
  [Act.newURLReader, Act.runSetupSubscriptions, Act.newConnectionsProvider, Act.setHomeUri,
    Act.registerTreeDataProvider "malloyConnections", Act.registerCommand "malloy.editConnections",
    Act.runCloudshellEnv, Act.registerConfigListener,
    Act.lcConstruct "malloy" "Malloy Language Server", Act.lcStart, Act.lcAwaitOnReady,
    Act.newWorkerConnection, Act.setWorkerCall,
    Act.workerSend (WorkerMessage.config (getConfiguration h "malloy")),
    Act.onReadyResolved,
    Act.onRequest "malloy/fetchFile", Act.onRequest "malloy/fetchBinaryFile",
    Act.onRequest "malloy/fetchCellData"]

/-- The state after a complete activation, written out; tied to the
embedding by `activationRun_eq` below. -/
def activationFinalState (ctx : String) (h : HostConfig) (env0 : Env) : ExtState :=
  { env := cloudshellEnv h env0
    subscriptions := [Subscription.treeDataProvider "malloyConnections",
      Subscription.command "malloy.editConnections" HandlerRef.editConnectionsCommand,
      Subscription.configListener]
    client := some (registerFetchHandlers { mkLanguageClient ctx with started := true })
    worker := some { ctx := ctx }
    workerMsgs := [WorkerMessage.config (getConfiguration h "malloy")] }

theorem activationRun_eq (ctx : String) (h : HostConfig) (env0 : Env) :
    activationRun ctx h env0 = some (activationFinalState ctx h env0, activationTrace h) := rfl

/-- Every action satisfying `p` occurs strictly before every action
satisfying `q` in the trace `t`; this is what "the `p`-phase completes
before the `q`-phase starts" means when both phases occur. -/
def completesBefore (p q : Act → Bool) (t : List Act) : Prop :=
  ∀ i j : Fin t.length, p t[i] = true → q t[j] = true → (i : Nat) < j

instance (p q : Act → Bool) (t : List Act) : Decidable (completesBefore p q t) := by
  unfold completesBefore
  infer_instance

/-- No action satisfying `p` occurs before the first action satisfying
`q`: the `p`-actions happen only once `q` has happened. -/
def occursOnlyAfter (p q : Act → Bool) (t : List Act) : Bool :=
  (t.takeWhile fun a => ! q a).all fun a => ! p a

/-- Strictly increasing first-occurrence positions for a list of
classifiers. -/
def findIdxChain : List (Act → Bool) → List Act → Bool
  | [], _ => true
  | [_], _ => true
  | p :: q :: rest, t => Nat.blt (t.findIdx p) (t.findIdx q) && findIdxChain (q :: rest) t

/-- Each classifier matches somewhere in the trace, and their first
occurrences appear in the given order. -/
def tracksInOrder (cls : List (Act → Bool)) (t : List Act) : Bool :=
  cls.all (fun p => t.any p) && findIdxChain cls t

/-- C1: after the handlers are registered (once `client.onReady()` has
resolved), the handler registered for `malloy/fetchFile` returns exactly
`fetchFile` applied to the event's `uri` field, and likewise
`malloy/fetchBinaryFile` with `fetchBinaryFile` and `malloy/fetchCellData`
with `fetchCellData`, with no transformation of the result. -/
theorem C1_fetch_handlers_forward (ctx : String) (h : HostConfig) (env0 : Env) :
    ∃ s t c, activationRun ctx h env0 = some (s, t) ∧ s.client = some c ∧
      (∃ f, c.handlers.lookup "malloy/fetchFile" = some f ∧
        ∀ e : FetchEvent, f e = fetchFile e.uri) ∧
      (∃ f, c.handlers.lookup "malloy/fetchBinaryFile" = some f ∧
        ∀ e : FetchEvent, f e = fetchBinaryFile e.uri) ∧
      (∃ f, c.handlers.lookup "malloy/fetchCellData" = some f ∧
        ∀ e : FetchEvent, f e = fetchCellData e.uri) := by
  refine ⟨_, _, _, activationRun_eq ctx h env0, rfl, ⟨_, rfl, fun e => rfl⟩,
    ⟨_, rfl, fun e => rfl⟩, ⟨_, rfl, fun e => rfl⟩⟩

/-- C5: `setupLanguageServer` constructs a `LanguageClient` with id
`malloy`, document-selector language `malloy` and synchronized
configuration section `malloy`, starts it, and registers exactly the
three fetch request handlers, all of them only after `client.onReady()`
has resolved. -/
theorem C5_language_client_setup (ctx : String) (h : HostConfig) (env0 : Env) :
    (mkLanguageClient ctx).id = "malloy" ∧
    (mkLanguageClient ctx).documentSelectorLanguages = ["malloy"] ∧
    (mkLanguageClient ctx).syncConfigSection = "malloy" ∧
    ∃ s t, activationRun ctx h env0 = some (s, t) ∧
      (∃ c, s.client = some c ∧ c.started = true) ∧
      Act.lcStart ∈ t ∧
      t.filter Act.isOnRequest = [Act.onRequest "malloy/fetchFile",
        Act.onRequest "malloy/fetchBinaryFile", Act.onRequest "malloy/fetchCellData"] ∧
      occursOnlyAfter Act.isOnRequest Act.isOnReadyResolved t = true ∧
      occursOnlyAfter Act.isOnReadyResolved Act.isLcStartAct t = true := by
  refine ⟨rfl, rfl, rfl, _, _, activationRun_eq ctx h env0, ⟨_, rfl, rfl⟩, ?_, rfl, rfl, rfl⟩
  simp [activationTrace]

/-- C6: `activate` registers exactly one command, namely
`malloy.editConnections` bound to `editConnectionsCommand`, and exactly
one tree data provider, for the view `malloyConnections`; the resulting
disposables are pushed onto `context.subscriptions`. -/
theorem C6_registrations (ctx : String) (h : HostConfig) (env0 : Env) :
    ∃ s t, activationRun ctx h env0 = some (s, t) ∧
      t.countP Act.isRegisterCommandAct = 1 ∧
      Act.registerCommand "malloy.editConnections" ∈ t ∧
      t.countP Act.isRegisterTreeProviderAct = 1 ∧
      Act.registerTreeDataProvider "malloyConnections" ∈ t ∧
      Subscription.command "malloy.editConnections" HandlerRef.editConnectionsCommand
        ∈ s.subscriptions ∧
      Subscription.treeDataProvider "malloyConnections" ∈ s.subscriptions := by
  refine ⟨_, _, activationRun_eq ctx h env0, rfl, ?_, rfl, ?_, ?_, ?_⟩
  · simp [activationTrace]
  · simp [activationTrace]
  · simp [activationFinalState]
  · simp [activationFinalState]

/-- C7: `setupWorker` registers the `WorkerConnection` constructed from
the context (so `getWorker()` afterwards returns it) and sends it
exactly one message, of type `config`, carrying the current `malloy`
workspace configuration; after a complete activation the worker's
message log is exactly that one config message. -/
theorem C7_setupWorker_registers_and_configures (ctx : String) (h : HostConfig) (env0 : Env) :
    (∀ s : ExtState, ∃ s' t, setupWorker ctx h s = some (s', t) ∧
        s'.worker = some { ctx := ctx } ∧
        s'.workerMsgs = s.workerMsgs ++ [WorkerMessage.config (getConfiguration h "malloy")] ∧
        t.countP Act.isWorkerSendAct = 1) ∧
    ∃ s t, activationRun ctx h env0 = some (s, t) ∧
      s.worker = some { ctx := ctx } ∧
      s.workerMsgs = [WorkerMessage.config (getConfiguration h "malloy")] := by
  exact ⟨fun s => ⟨_, _, rfl, rfl, rfl, rfl⟩, _, _, activationRun_eq ctx h env0, rfl, rfl⟩

/-- C9: `deactivate` emits `client.stop()` exactly when a client was
created and sends `{type: 'exit'}` to the worker exactly when a worker
is registered, with the stop awaited before the exit message; when
neither exists it performs no action and leaves the state unchanged. -/
theorem C9_deactivate_conditional (s : ExtState) :
    (deactivate s).2 =
      (if s.client.isSome then [Act.clientStop] else []) ++
      (if s.worker.isSome then [Act.workerSend WorkerMessage.exit] else []) ∧
    (deactivate s).1.workerMsgs =
      s.workerMsgs ++ (if s.worker.isSome then [WorkerMessage.exit] else []) ∧
    (s.client = none → s.worker = none → deactivate s = (s, [])) := by
  rcases s with ⟨env, subs, client, worker, msgs⟩
  refine ⟨?_, ?_, ?_⟩
  · cases client <;> cases worker <;> simp [deactivate]
  · cases client <;> cases worker <;> simp [deactivate]
  · intro hc hw
    simp only at hc hw
    subst hc
    subst hw
    simp [deactivate]

/-- Witness for C9: on the initial state (no client, no worker)
`deactivate` does nothing; on a fully activated state it stops the
client and then sends the exit message. -/
theorem C9_deactivate_conditional_witness :
    deactivate (initialState []) = (initialState [], []) ∧
    (deactivate (activationFinalState "/ext" { cloudcode := [], malloy := [] } [])).2
      = [Act.clientStop, Act.workerSend WorkerMessage.exit] := by
  constructor
  · exact (C9_deactivate_conditional (initialState [])).2.2 rfl rfl
  · rw [(C9_deactivate_conditional
      (activationFinalState "/ext" { cloudcode := [], malloy := [] } [])).1]
    rfl

/-- C2: on a configuration-change event affecting the `malloy` section
(with a worker registered, as is the case after activation), the
listener awaits the connection manager's update, then refreshes the
connections tree, then sends the worker a `config` message carrying the
current `malloy` workspace configuration, in that order. -/
theorem C2_malloy_config_change_order (h : HostConfig) (e : ConfigChangeEvent) (s : ExtState)
    (w : WorkerConnection) (hm : e.affects "malloy" = true) (hw : s.worker = some w) :
    ∃ s' rest, configListener h e s =
      some (s', [Act.awaitConnectionManagerUpdate, Act.refreshConnectionsTree,
        Act.workerSend (WorkerMessage.config (getConfiguration h "malloy"))] ++ rest) ∧
      s'.workerMsgs = s.workerMsgs ++ [WorkerMessage.config (getConfiguration h "malloy")] := by
  by_cases hcs : e.affects "cloudshell" = true
  · refine ⟨{ s with
        workerMsgs := s.workerMsgs ++ [WorkerMessage.config (getConfiguration h "malloy")],
        env := cloudshellEnv h s.env }, [Act.runCloudshellEnv], ?_, rfl⟩
    simp [configListener, sendWorkerConfig, hm, hw, hcs]
  · refine ⟨{ s with
        workerMsgs := s.workerMsgs ++ [WorkerMessage.config (getConfiguration h "malloy")] },
      [], ?_, rfl⟩
    simp [configListener, sendWorkerConfig, hm, hw, hcs]

/-- Witness for C2: a concrete event affecting only `malloy`, delivered
in the state reached by a complete activation. -/
theorem C2_malloy_config_change_order_witness :
    ∃ s' rest, configListener { cloudcode := [], malloy := [("rowLimit", JSValue.num 50)] }
        { affects := fun sec => sec == "malloy" }
        (activationFinalState "/ext" { cloudcode := [], malloy := [] } []) =
      some (s', [Act.awaitConnectionManagerUpdate, Act.refreshConnectionsTree,
        Act.workerSend (WorkerMessage.config
          (getConfiguration { cloudcode := [], malloy := [("rowLimit", JSValue.num 50)] }
            "malloy"))] ++ rest) ∧
      s'.workerMsgs =
        (activationFinalState "/ext" { cloudcode := [], malloy := [] } []).workerMsgs ++
          [WorkerMessage.config
            (getConfiguration { cloudcode := [], malloy := [("rowLimit", JSValue.num 50)] }
              "malloy")] :=
  C2_malloy_config_change_order _ _ _ { ctx := "/ext" } rfl rfl

/-- C10: a configuration-change event affecting neither the `malloy`
section nor the `cloudshell` section leaves the state (worker messages,
environment, subscriptions, client) untouched and performs no observable
action. -/
theorem C10_unrelated_config_change_is_noop (h : HostConfig) (e : ConfigChangeEvent)
    (s : ExtState) (hm : e.affects "malloy" = false) (hcs : e.affects "cloudshell" = false) :
    configListener h e s = some (s, []) := by
  simp [configListener, hm, hcs]

/-- Witness for C10: an event affecting only an unrelated section, in
the post-activation state. -/
theorem C10_unrelated_config_change_is_noop_witness :
    configListener { cloudcode := [], malloy := [] }
        { affects := fun sec => sec == "editor" }
        (activationFinalState "/ext" { cloudcode := [], malloy := [] } []) =
      some (activationFinalState "/ext" { cloudcode := [], malloy := [] } [], []) :=
  C10_unrelated_config_change_is_noop _ _ _ rfl rfl

theorem sendWorkerConfig_preserves_worker (h : HostConfig) (s : ExtState)
    (w : WorkerConnection) (hw : s.worker = some w) :
    sendWorkerConfig h s =
      some ({ s with workerMsgs :=
          s.workerMsgs ++ [WorkerMessage.config (getConfiguration h "malloy")] },
        [Act.workerSend (WorkerMessage.config (getConfiguration h "malloy"))]) := by
  unfold sendWorkerConfig
  rw [hw]

theorem configListener_preserves_worker (h : HostConfig) (e : ConfigChangeEvent)
    (s : ExtState) (w : WorkerConnection) (hw : s.worker = some w) :
    ∃ s' t, configListener h e s = some (s', t) ∧ s'.worker = some w := by
  by_cases hm : e.affects "malloy" = true
  · by_cases hcs : e.affects "cloudshell" = true
    · refine ⟨{ s with
          workerMsgs := s.workerMsgs ++ [WorkerMessage.config (getConfiguration h "malloy")],
          env := cloudshellEnv h s.env },
        [Act.awaitConnectionManagerUpdate, Act.refreshConnectionsTree,
          Act.workerSend (WorkerMessage.config (getConfiguration h "malloy")),
          Act.runCloudshellEnv], ?_, hw⟩
      simp [configListener, sendWorkerConfig_preserves_worker h s w hw, hm, hcs]
    · refine ⟨{ s with
          workerMsgs := s.workerMsgs ++ [WorkerMessage.config (getConfiguration h "malloy")] },
        [Act.awaitConnectionManagerUpdate, Act.refreshConnectionsTree,
          Act.workerSend (WorkerMessage.config (getConfiguration h "malloy"))], ?_, hw⟩
      simp [configListener, sendWorkerConfig_preserves_worker h s w hw, hm, hcs]
  · by_cases hcs : e.affects "cloudshell" = true
    · refine ⟨{ s with env := cloudshellEnv h s.env }, [Act.runCloudshellEnv], ?_, hw⟩
      simp [configListener, hm, hcs]
    · exact ⟨s, [], by simp [configListener, hm, hcs], hw⟩

theorem stepTurn_preserves_worker (s : ExtState) (ev : LoopEvent)
    (w : WorkerConnection) (hw : s.worker = some w) :
    ∃ s', stepTurn s ev = some s' ∧ s'.worker = some w := by
  cases ev with
  | onReadyResolves => exact ⟨_, rfl, hw⟩
  | configChanged hc e =>
      obtain ⟨s', t, hs, hw'⟩ := configListener_preserves_worker hc e s w hw
      exact ⟨s', by simp [stepTurn, hs], hw'⟩

theorem runLoop_isSome_of_worker (evs : List LoopEvent) :
    ∀ (s : ExtState) (w : WorkerConnection), s.worker = some w → (runLoop s evs).isSome := by
  induction evs with
  | nil => intro s w _; rfl
  | cons ev rest ih =>
      intro s w hw
      obtain ⟨s', hs, hw'⟩ := stepTurn_preserves_worker s ev w hw
      have : runLoop s (ev :: rest) = runLoop s' rest := by
        simp [runLoop, hs]
      rw [this]
      exact ih s' w hw'

/-- C8: every `sendWorkerConfig` reachable after `activate` runs with a
worker already registered, so `getWorker().send` never dereferences an
absent worker.  The synchronous body of `activate` (where `setWorker`
runs before `sendWorkerConfig` inside `setupWorker`) succeeds, and under
the single-threaded event-loop model no later turn (the `onReady`
continuation or any configuration-change delivery) can fail: the whole
run is `some` for every event schedule. -/
theorem C8_sendWorkerConfig_never_absent (ctx : String) (h : HostConfig) (env0 : Env)
    (evs : List LoopEvent) :
    ((activateSync ctx h (initialState env0)).bind fun p => runLoop p.1 evs).isSome := by
  have ha : ∃ p, activateSync ctx h (initialState env0) = some p ∧
      p.1.worker = some { ctx := ctx } := ⟨_, rfl, rfl⟩
  obtain ⟨p, hp, hw⟩ := ha
  rw [hp]
  exact runLoop_isSome_of_worker evs p.1 { ctx := ctx } hw

/-- The ordering claimed by C4 for two phases: every action of the first
phase precedes every action of the second.  `setupLanguageServer`
completing before `setupWorker` starts would be
`completesBefore Act.isLangServerAct Act.isWorkerSetupAct`; the
counterexample below shows it fails, because `setupLanguageServer` is
`async` and not awaited, so its handler registrations run after
`setupWorker`. -/
theorem C4_counterexample :
    activationRun "/ext" { cloudcode := [], malloy := [] } [] =
      some (activationFinalState "/ext" { cloudcode := [], malloy := [] } [],
        activationTrace { cloudcode := [], malloy := [] }) ∧
    ¬ completesBefore Act.isLangServerAct Act.isWorkerSetupAct
      (activationTrace { cloudcode := [], malloy := [] }) :=
  ⟨rfl, by decide⟩

/-- C4 (amended): `activate` performs its synchronous setup steps
sequentially in source order — subscription setup, tree-view
construction, home-URI initialization, tree-data-provider and command
registration, cloud-shell environment propagation, configuration-listener
registration, then the synchronous prefix of `setupLanguageServer`
(client construction, `client.start()`, beginning to await `onReady`),
then all of `setupWorker`.  `setupLanguageServer` is `async` and not
awaited, so it does NOT complete before `setupWorker` starts: its
request-handler registrations run only after `client.onReady()`
resolves, which is after `setupWorker` has completed. -/
theorem C4_activation_order (ctx : String) (h : HostConfig) (env0 : Env) :
    ∃ s t, activationRun ctx h env0 = some (s, t) ∧
      tracksInOrder [Act.isSetupSubscriptionsAct, Act.isNewConnectionsProviderAct,
        Act.isSetHomeUriAct, Act.isRegisterTreeProviderAct, Act.isRegisterCommandAct,
        Act.isRunCloudshellEnvAct, Act.isRegisterConfigListenerAct,
        Act.isLcConstructAct, Act.isLcStartAct, Act.isLcAwaitOnReadyAct,
        Act.isNewWorkerConnectionAct, Act.isSetWorkerCallAct, Act.isWorkerSendAct,
        Act.isOnReadyResolved, Act.isOnRequest] t = true ∧
      occursOnlyAfter Act.isWorkerSetupAct Act.isLcAwaitOnReadyAct t = true ∧
      occursOnlyAfter Act.isOnRequest Act.isWorkerSetupAct t = true :=
  ⟨_, _, activationRun_eq ctx h env0, rfl, rfl, rfl⟩
